import Mathlib

set_option maxRecDepth 8000

/-!
Verification development for the MUJ-Event-Portal repository.

The repository stores events, registrations and users in a document store
(Firestore) behind a hand written SQL-like dispatch shim (config/db.js).
This file embeds that layer shallowly:

* documents become Lean structures, the three collections become lists inside
  a `Store` value;
* the external document store backend is modelled by a `Health` parameter:
  `none` means every backend call succeeds, `some f` means every backend call
  fails with failure `f` (either the NOT_FOUND status code 5 or any other
  error carrying a message) — this mirrors the try/catch structure of each
  function in config/db.js;
* the JavaScript string operations used by the shim (trim, toLowerCase,
  toUpperCase, includes, startsWith, parseInt, the whitespace collapsing
  regex replace and the email format regex) are given explicit executable
  models on character lists.
-/

namespace MujPortal

/-- Model of the JavaScript whitespace class (space, tab, carriage return,
newline) shared by trim and the regex classes. -/
def wsChar (c : Char) : Bool := c.isWhitespace

/-- Characters of the JavaScript s.trim(): whitespace removed from both ends. -/
def trimChars (cs : List Char) : List Char :=
  ((cs.dropWhile wsChar).reverse.dropWhile wsChar).reverse

/-- Model of the JavaScript s.trim(). -/
def jsTrim (s : String) : String := String.mk (trimChars s.data)

/-- Model of the JavaScript s.toLowerCase() (ASCII letters, which is all the
code relies on). -/
def jsToLower (s : String) : String := String.mk (s.data.map Char.toLower)

/-- Collapse every whitespace run to a single space: the replace of the
regex matching one or more whitespace characters by a space in db.js.
The boolean records whether the previous character was whitespace. -/
def collapseWsAux : Bool → List Char → List Char
  | _, [] => []
  | prevWs, c :: rest =>
    if wsChar c then
      if prevWs then collapseWsAux true rest
      else ' ' :: collapseWsAux true rest
    else c :: collapseWsAux false rest

/-- The normalisation applied to the query text in dbInterface.query:
sql.trim().toUpperCase() followed by collapsing whitespace runs. -/
def normalizeSql (sql : String) : String :=
  String.mk (collapseWsAux false ((trimChars sql.data).map Char.toUpper))

/-- Does the first list start with the second one? -/
def startsWithChars : List Char → List Char → Bool
  | _, [] => true
  | [], _ :: _ => false
  | a :: as, b :: bs => a == b && startsWithChars as bs

/-- Does the list contain the pattern as a contiguous run? -/
def hasSubChars (pat : List Char) : List Char → Bool
  | [] => pat.isEmpty
  | c :: rest => startsWithChars (c :: rest) pat || hasSubChars pat rest

/-- Model of the JavaScript s.includes(pat). -/
def sqlContains (s pat : String) : Bool := hasSubChars pat.data s.data

/-- Model of the JavaScript s.startsWith(pat). -/
def sqlStarts (s pat : String) : Bool := startsWithChars s.data pat.data

/-- Numeric value of a decimal digit character. -/
def digitVal (c : Char) : Nat := c.toNat - 48

/-- Accumulate the leading decimal digits; `none` means no digit was seen. -/
def parseDigitsAux : List Char → Option Nat → Option Nat
  | [], acc => acc
  | c :: rest, acc =>
    if c.isDigit then parseDigitsAux rest (some (acc.getD 0 * 10 + digitVal c))
    else acc

/-- Model of the JavaScript parseInt with the default radix: skip surrounding
whitespace, read an optional sign and the leading decimal digits; `none`
models the NaN result when no digit is present. -/
def jsParseInt (s : String) : Option Int :=
  match trimChars s.data with
  | '-' :: rest => (parseDigitsAux rest none).map (fun n => -(n : Int))
  | '+' :: rest => (parseDigitsAux rest none).map (fun n => (n : Int))
  | cs => (parseDigitsAux cs none).map (fun n => (n : Int))

/-- An event document: { id, title, date, venue }. -/
structure Event where
  id : String
  title : String
  date : String
  venue : String
deriving DecidableEq, Repr

/-- A registration document: { id, name, email, event_id }. -/
structure Registration where
  id : String
  name : String
  email : String
  event_id : String
deriving DecidableEq, Repr

/-- A user document: { uid, email, name, role }. -/
structure User where
  uid : String
  email : String
  name : String
  role : String
deriving DecidableEq, Repr

/-- The three Firestore collections. The list order models the enumeration
order the store returns documents in. -/
structure Store where
  events : List Event
  registrations : List Registration
  users : List User
deriving DecidableEq, Repr

/-- A backend failure: the NOT_FOUND status (code 5) that the code treats as
a missing database, or any other error with its message. -/
inductive StoreFailure where
  | notFound
  | unavailable (msg : String)
deriving DecidableEq, Repr

/-- Backend health for one request: `none` means backend calls succeed,
`some f` means every backend call raises failure `f`. -/
abbrev Health := Option StoreFailure

/-- An error surfaced to the caller of the data layer. -/
structure DbError where
  msg : String
deriving DecidableEq, Repr

/-- The message carried by a re-raised backend failure. -/
def failureMsg : StoreFailure → String
  | .notFound => "NOT_FOUND"
  | .unavailable m => m

/-- The descriptive message thrown when the backend reports NOT_FOUND during
a write (database not enabled). -/
def dbNotEnabledMsg : String :=
  "Firestore database not enabled. Please enable it in Firebase Console."

/-- Sort relation used to model the Firestore orderBy on the date field,
ascending. -/
def dateLe (a b : Event) : Prop := a.date ≤ b.date

instance : DecidableRel dateLe := fun a b => inferInstanceAs (Decidable (a.date ≤ b.date))

/-- Events in the order the store returns them for orderBy date ascending. -/
def sortEventsByDate (l : List Event) : List Event := List.insertionSort dateLe l

/-- getAllEvents: orderBy date ascending; every catch branch (NOT_FOUND or
any other error) logs and returns the empty array. -/
def getAllEvents (h : Health) (s : Store) : Except DbError (List Event) :=
  match h with
  | none => .ok (sortEventsByDate s.events)
  | some _ => .ok []

/-- getEventById: document lookup; both catch branches return null. -/
def getEventById (h : Health) (s : Store) (id : String) :
    Except DbError (Option Event) :=
  match h with
  | none => .ok (s.events.find? (fun e => e.id == id))
  | some _ => .ok none

/-- createEvent: add a document with a generated id `gen`; a NOT_FOUND
failure is re-thrown with the descriptive message, any other failure is
re-thrown as is. -/
def createEvent (h : Health) (gen : String) (s : Store)
    (title date venue : String) : Except DbError (Event × Store) :=
  match h with
  | none =>
    let e : Event := { id := gen, title := title, date := date, venue := venue }
    .ok (e, { s with events := s.events ++ [e] })
  | some .notFound => .error { msg := dbNotEnabledMsg }
  | some (.unavailable m) => .error { msg := m }

/-- deleteEvent: unconditional removal of the document with the given id;
errors are re-thrown. -/
def deleteEvent (h : Health) (s : Store) (id : String) :
    Except DbError (Bool × Store) :=
  match h with
  | none => .ok (true, { s with events := s.events.filter (fun e => !(e.id == id)) })
  | some f => .error { msg := failureMsg f }

/-- getAllRegistrations: plain collection read; the catch branch returns
the empty array. -/
def getAllRegistrations (h : Health) (s : Store) :
    Except DbError (List Registration) :=
  match h with
  | none => .ok s.registrations
  | some _ => .ok []

/-- getRegistrationsByEventId: field equality query; the catch branch
returns the empty array. -/
def getRegistrationsByEventId (h : Health) (s : Store) (eventId : String) :
    Except DbError (List Registration) :=
  match h with
  | none => .ok (s.registrations.filter (fun r => r.event_id == eventId))
  | some _ => .ok []

/-- isEmailRegisteredForEvent: the stored email is compared with the
lowercased (but not trimmed) query email; the catch branch returns false. -/
def isEmailRegisteredForEvent (h : Health) (s : Store) (email eventId : String) :
    Except DbError Bool :=
  match h with
  | none => .ok (s.registrations.any (fun r =>
      r.email == jsToLower email && r.event_id == eventId))
  | some _ => .ok false

/-- createRegistration: the stored name is trimmed and the stored email is
trimmed and lowercased; errors are re-thrown as is. -/
def createRegistration (h : Health) (gen : String) (s : Store)
    (name email event_id : String) : Except DbError (Registration × Store) :=
  match h with
  | none =>
    let r : Registration :=
      { id := gen, name := jsTrim name, email := jsToLower (jsTrim email),
        event_id := event_id }
    .ok (r, { s with registrations := s.registrations ++ [r] })
  | some f => .error { msg := failureMsg f }

/-- getUserByUid: document lookup; both catch branches return null. -/
def getUserByUid (h : Health) (s : Store) (uid : String) :
    Except DbError (Option User) :=
  match h with
  | none => .ok (s.users.find? (fun u => u.uid == uid))
  | some _ => .ok none

/-- The JavaScript a || b fallback on strings; the empty string models a
falsy (missing or empty) field. -/
def jsOr (a b : String) : String := if a == "" then b else a

/-- Input of createUser. -/
structure UserData where
  uid : String
  email : String
  name : String
  role : String
deriving DecidableEq, Repr

/-- set on a document reference: replace the document with that id when it
exists, otherwise create it. -/
def setDocUser (users : List User) (uid : String) (u : User) : List User :=
  if users.any (fun x => x.uid == uid) then
    users.map (fun x => if x.uid == uid then u else x)
  else users ++ [u]

/-- createUser: return the existing document when one with the uid exists;
otherwise set the document keyed by the uid (name falling back to the email,
role falling back to student) and read it back. A NOT_FOUND failure is
re-thrown with the descriptive message, any other failure as is. -/
def createUser (h : Health) (s : Store) (d : UserData) :
    Except DbError (Option User × Store) :=
  match h with
  | none =>
    match s.users.find? (fun u => u.uid == d.uid) with
    | some existing => .ok (some existing, s)
    | none =>
      let u : User :=
        { uid := d.uid, email := d.email, name := jsOr d.name d.email,
          role := jsOr d.role "student" }
      let s' := { s with users := setDocUser s.users d.uid u }
      .ok (s'.users.find? (fun x => x.uid == d.uid), s')
  | some .notFound => .error { msg := dbNotEnabledMsg }
  | some (.unavailable m) => .error { msg := m }

/-- A flattened row produced by the join of registrations with events. -/
structure JoinedRow where
  id : String
  name : String
  email : String
  event_title : String
  event_date : String
  event_venue : String
deriving DecidableEq, Repr

/-- The events map built by the forEach in getRegistrationsWithEvents: a
later event with the same id overwrites an earlier one, so the lookup
returns the last event carrying the id. -/
def lastWinsLookup (events : List Event) (eid : String) : Option Event :=
  events.foldl (fun acc e => if e.id == eid then some e else acc) none

/-- The flattened row built from a registration and its event. -/
def mkJoinedRow (reg : Registration) (event : Event) : JoinedRow :=
  { id := reg.id, name := reg.name, email := reg.email,
    event_title := event.title, event_date := event.date,
    event_venue := event.venue }

/-- The comparator sort((a, b) => parseInt(b.id) - parseInt(a.id)) as the
keep-in-order relation of a stable sort: a pair stays in order exactly when
the comparator is not positive, and a NaN comparator value also leaves the
pair in order. -/
def joinLeB (a b : JoinedRow) : Bool :=
  match jsParseInt b.id, jsParseInt a.id with
  | some pb, some pa => pb ≤ pa
  | _, _ => true

/-- The stable sort of the joined rows by the parseInt comparator. -/
def sortJoinedDesc (l : List JoinedRow) : List JoinedRow :=
  List.insertionSort (fun a b => joinLeB a b = true) l

/-- getRegistrationsWithEvents: load all registrations and all events, build
the id keyed events map, keep flattened rows for registrations whose event
is present (the map produces null entries that the filter removes), sort by
registration id descending via parseInt; the catch branch returns []. -/
def getRegistrationsWithEvents (h : Health) (s : Store) :
    Except DbError (List JoinedRow) :=
  match (do
      let registrations ← getAllRegistrations h s
      let events ← getAllEvents h s
      let rows := (registrations.map (fun reg =>
        match lastWinsLookup events reg.event_id with
        | none => none
        | some event => some (mkJoinedRow reg event))).reduceOption
      pure (sortJoinedDesc rows) : Except DbError (List JoinedRow)) with
  | .ok v => .ok v
  | .error _ => .ok []

/-- A row of a query result: an event row, a joined row, or the synthetic
{ id: 1 } row of the existence check. -/
inductive Row where
  | ev (e : Event)
  | joined (j : JoinedRow)
  | idRow (n : Nat)
deriving DecidableEq, Repr

/-- One element of the array returned by dbInterface.query: either the
object carrying insertId, or an inner array of rows. -/
inductive ResultElem where
  | insertObj (insertId : String)
  | rowList (rows : List Row)
deriving DecidableEq, Repr

/-- Pattern 1: text containing INSERT INTO EVENTS (the code checks
startsWith and includes). -/
def matchP1 (u : String) : Bool :=
  sqlStarts u "INSERT INTO EVENTS" || sqlContains u "INSERT INTO EVENTS"

/-- Pattern 2: SELECT together with FROM EVENTS and WHERE ID = ?. -/
def matchP2 (u : String) : Bool :=
  sqlContains u "SELECT" && sqlContains u "FROM EVENTS" &&
    sqlContains u "WHERE ID = ?"

/-- Pattern 2b: the literal SELECT ID FROM EVENTS WHERE ID = ? check (it is
subsumed by pattern 2 and hence unreachable, but the code spells it out). -/
def matchP2b (u : String) : Bool :=
  sqlContains u "SELECT ID FROM EVENTS WHERE ID = ?"

/-- Pattern 3: SELECT together with FROM EVENTS and no WHERE. -/
def matchP3 (u : String) : Bool :=
  sqlContains u "SELECT" && sqlContains u "FROM EVENTS" &&
    !(sqlContains u "WHERE")

/-- Pattern 4: the duplicate registration existence check text. -/
def matchP4 (u : String) : Bool :=
  sqlContains u "SELECT ID FROM REGISTRATIONS WHERE EMAIL = ? AND EVENT_ID = ?"

/-- Pattern 5: text containing INSERT INTO REGISTRATIONS. -/
def matchP5 (u : String) : Bool :=
  sqlContains u "INSERT INTO REGISTRATIONS"

/-- Pattern 6: the admin join query text. -/
def matchP6 (u : String) : Bool :=
  sqlContains u "FROM REGISTRATIONS R" && sqlContains u "INNER JOIN EVENTS E"

/-- dbInterface.query: normalise the text, try the patterns in order and
dispatch to the matching store operation; the final catch logs and
re-raises, the unmatched fallthrough returns the doubly wrapped empty
result. `gen` is the document id the store generates for an insert. -/
def query (h : Health) (gen : String) (s : Store) (sql : String)
    (params : List String) : Except DbError (List ResultElem × Store) :=
  let u := normalizeSql sql
  if matchP1 u then
    match createEvent h gen s (params.getD 0 "") (params.getD 1 "") (params.getD 2 "") with
    | .ok (e, s') => .ok ([.insertObj e.id], s')
    | .error err => .error err
  else if matchP2 u then
    match getEventById h s (params.getD 0 "") with
    | .ok opt => .ok ([.rowList (([opt].filterMap id).map Row.ev)], s)
    | .error err => .error err
  else if matchP2b u then
    match getEventById h s (params.getD 0 "") with
    | .ok opt => .ok ([.rowList (([opt].filterMap id).map Row.ev)], s)
    | .error err => .error err
  else if matchP3 u then
    match getAllEvents h s with
    | .ok evs => .ok ([.rowList (evs.map Row.ev)], s)
    | .error err => .error err
  else if matchP4 u then
    match isEmailRegisteredForEvent h s (params.getD 0 "") (params.getD 1 "") with
    | .ok b => .ok ([.rowList (if b then [Row.idRow 1] else [])], s)
    | .error err => .error err
  else if matchP5 u then
    match createRegistration h gen s (params.getD 0 "") (params.getD 1 "") (params.getD 2 "") with
    | .ok (r, s') => .ok ([.insertObj r.id], s')
    | .error err => .error err
  else if matchP6 u then
    match getRegistrationsWithEvents h s with
    | .ok rows => .ok ([.rowList (rows.map Row.joined)], s)
    | .error err => .error err
  else
    .ok ([.rowList []], s)

/-- Whether a dot occurs before the final character of the list. -/
def dotBeforeEnd : List Char → Bool
  | [] => false
  | [_] => false
  | c :: rest => c == '.' || dotBeforeEnd rest

/-- Whether the list splits as B, a dot, C with B and C both nonempty. -/
def dotMid : List Char → Bool
  | [] => false
  | _ :: t => dotBeforeEnd t

/-- The email format regex of the register route: one or more characters
that are neither whitespace nor an at sign, an at sign, then a remainder
with no whitespace and no at sign that splits around a dot into two
nonempty parts. -/
def emailRegexTest (email : String) : Bool :=
  let cs := email.data
  let a := cs.takeWhile (fun c => !(c == '@'))
  match cs.dropWhile (fun c => !(c == '@')) with
  | [] => false
  | _ :: rest =>
    !a.isEmpty && a.all (fun c => !wsChar c) &&
    !rest.isEmpty && rest.all (fun c => !wsChar c && !(c == '@')) &&
    dotMid rest

/-- Outcome of the POST /register handler. -/
inductive RegisterOutcome where
  | missingFields
  | invalidEmail
  | eventNotFound
  | alreadyRegistered
  | success
  | failed (msg : String)
deriving DecidableEq, Repr

/-- The inner row list destructured by const [rows] = await db.query(...). -/
def firstRowList (res : List ResultElem) : List Row :=
  match res.head? with
  | some (.rowList rows) => rows
  | _ => []

/-- The POST /register handler of registerRoutes.js: require all fields,
validate the email format, check the event exists, run the duplicate check
with the raw email, then insert with the trimmed name and email. -/
def postRegister (h : Health) (gen : String) (s : Store)
    (name email event_id : String) : RegisterOutcome × Store :=
  if name == "" || email == "" || event_id == "" then (.missingFields, s)
  else if !(emailRegexTest email) then (.invalidEmail, s)
  else
    match query h gen s "SELECT id FROM events WHERE id = ?" [event_id] with
    | .error e => (.failed e.msg, s)
    | .ok (res1, s1) =>
      if (firstRowList res1).isEmpty then (.eventNotFound, s1)
      else
        match query h gen s1
            "SELECT id FROM registrations WHERE email = ? AND event_id = ?"
            [email, event_id] with
        | .error e => (.failed e.msg, s1)
        | .ok (res2, s2) =>
          if !(firstRowList res2).isEmpty then (.alreadyRegistered, s2)
          else
            match query h gen s2
                "INSERT INTO registrations (name, email, event_id) VALUES (?, ?, ?)"
                [jsTrim name, jsTrim email, event_id] with
            | .error e => (.failed e.msg, s2)
            | .ok (_, s3) => (.success, s3)

/-- getUserRole of config/auth.js: the stored role when the user document
exists, otherwise the student default; the catch branch also defaults to
student. -/
def getUserRole (h : Health) (s : Store) (uid : String) : String :=
  match getUserByUid h s uid with
  | .ok (some u) => u.role
  | .ok none => "student"
  | .error _ => "student"

/-- Numeric key of a joined row for the specification side sort: the id
read as an integer. -/
def specIdKey (r : JoinedRow) : Int := (jsParseInt r.id).getD 0

/-- Specification side order: registration id descending under numeric
comparison. -/
def specDescLe (a b : JoinedRow) : Prop := specIdKey b ≤ specIdKey a

instance : DecidableRel specDescLe :=
  fun a b => inferInstanceAs (Decidable (specIdKey b ≤ specIdKey a))

/-- Specification side stable sort by registration id descending. -/
def specSortDesc (l : List JoinedRow) : List JoinedRow :=
  List.insertionSort specDescLe l

/-- The join result as the specification words it: for each registration
look its event_id up in the event mapping, drop the registration when the
event is absent, otherwise emit the flattened row; sort by registration id
descending under numeric comparison. -/
def joinSpec (s : Store) : List JoinedRow :=
  specSortDesc (s.registrations.filterMap (fun reg =>
    (s.events.find? (fun e => e.id == reg.event_id)).map (mkJoinedRow reg)))

/-! Helper lemmas. -/

theorem find?_eq_head?_filter {α : Type} (p : α → Bool) (l : List α) :
    l.find? p = (l.filter p).head? := by
  induction l with
  | nil => rfl
  | cons a t ih =>
    cases h : p a with
    | true =>
      rw [List.find?_cons_of_pos _ h, List.filter_cons_of_pos h, List.head?_cons]
    | false =>
      rw [List.find?_cons_of_neg _ (by simp [h]),
        List.filter_cons_of_neg (by simp [h]), ih]

theorem find?_eq_of_perm_of_le_one {α : Type} (p : α → Bool) {l₁ l₂ : List α}
    (hperm : l₁.Perm l₂) (hle : (l₂.filter p).length ≤ 1) :
    l₁.find? p = l₂.find? p := by
  rw [find?_eq_head?_filter, find?_eq_head?_filter]
  have hpf : (l₁.filter p).Perm (l₂.filter p) := hperm.filter p
  rcases Nat.le_one_iff_eq_zero_or_eq_one.mp hle with h0 | h1
  · have h₂ : l₂.filter p = [] := List.length_eq_zero.mp h0
    have h₁ : l₁.filter p = [] := by
      have := hpf.length_eq
      rw [h₂] at this
      exact List.length_eq_zero.mp this
    rw [h₁, h₂]
  · obtain ⟨a, ha⟩ := List.length_eq_one.mp h1
    have h₁ : l₁.filter p = [a] := by
      rw [ha] at hpf
      exact List.perm_singleton.mp hpf
    rw [h₁, ha]

theorem foldl_lastWins {p : Event → Bool} (l : List Event) (acc : Option Event) :
    l.foldl (fun acc e => if p e then some e else acc) acc
      = (l.reverse.find? p).or acc := by
  induction l generalizing acc with
  | nil => simp
  | cons e t ih =>
    simp only [List.foldl_cons, List.reverse_cons, List.find?_append, ih,
      Option.or_assoc]
    by_cases h : p e = true
    · simp [List.find?_cons, h]
    · simp only [Bool.not_eq_true] at h
      simp [List.find?_cons, h]

theorem lastWinsLookup_eq_reverse_find? (l : List Event) (eid : String) :
    lastWinsLookup l eid = l.reverse.find? (fun e => e.id == eid) := by
  rw [lastWinsLookup, foldl_lastWins, Option.or_none]

theorem filter_id_length_le_one {l : List Event} (eid : String)
    (hids : (l.map Event.id).Nodup) :
    (l.filter (fun e => e.id == eid)).length ≤ 1 := by
  induction l with
  | nil => simp
  | cons e t ih =>
    simp only [List.map_cons, List.nodup_cons] at hids
    by_cases h : e.id == eid
    · have heid : e.id = eid := beq_iff_eq.mp h
      have htnil : t.filter (fun x => x.id == eid) = [] := by
        rw [List.filter_eq_nil_iff]
        intro x hx hpx
        exact hids.1 (by
          rw [heid, ← beq_iff_eq.mp hpx]
          exact List.mem_map_of_mem Event.id hx)
      simp [List.filter_cons, h, htnil]
    · simp only [Bool.not_eq_true] at h
      simp only [List.filter_cons, h]
      exact ih hids.2

theorem lastWins_sorted_eq_find? (s : Store) (eid : String)
    (hids : (s.events.map Event.id).Nodup) :
    lastWinsLookup (sortEventsByDate s.events) eid
      = s.events.find? (fun e => e.id == eid) := by
  rw [lastWinsLookup_eq_reverse_find?]
  refine find?_eq_of_perm_of_le_one _ ?_ (filter_id_length_le_one eid hids)
  exact ((sortEventsByDate s.events).reverse_perm).trans
    (List.perm_insertionSort dateLe s.events)

theorem reduceOption_map_eq_filterMap {α β : Type} (f : α → Option β)
    (l : List α) : (l.map f).reduceOption = l.filterMap f := by
  induction l with
  | nil => rfl
  | cons a t ih =>
    cases h : f a <;>
      simp [List.reduceOption_cons_of_none, List.reduceOption_cons_of_some, h, ih]

theorem orderedInsert_congr {α : Type} (r r' : α → α → Prop)
    [DecidableRel r] [DecidableRel r'] (x : α) (m : List α)
    (h : ∀ y ∈ m, (r x y ↔ r' x y)) :
    List.orderedInsert r x m = List.orderedInsert r' x m := by
  induction m with
  | nil => rfl
  | cons y t ih =>
    simp only [List.orderedInsert]
    by_cases hxy : r x y
    · rw [if_pos hxy, if_pos ((h y (List.mem_cons_self y t)).mp hxy)]
    · rw [if_neg hxy, if_neg (fun h' => hxy ((h y (List.mem_cons_self y t)).mpr h')),
        ih (fun z hz => h z (List.mem_cons_of_mem y hz))]

theorem insertionSort_congr {α : Type} (r r' : α → α → Prop)
    [DecidableRel r] [DecidableRel r'] (l : List α)
    (h : ∀ a ∈ l, ∀ b ∈ l, (r a b ↔ r' a b)) :
    List.insertionSort r l = List.insertionSort r' l := by
  induction l with
  | nil => rfl
  | cons x t ih =>
    have hsorts : List.insertionSort r t = List.insertionSort r' t :=
      ih (fun a ha b hb =>
        h a (List.mem_cons_of_mem x ha) b (List.mem_cons_of_mem x hb))
    simp only [List.insertionSort, hsorts]
    refine orderedInsert_congr r r' x _ (fun y hy => ?_)
    have hyt : y ∈ t := ((List.perm_insertionSort r' t).mem_iff).mp hy
    exact h x (List.mem_cons_self x t) y (List.mem_cons_of_mem x hyt)

theorem sortJoinedDesc_eq_specSortDesc (l : List JoinedRow)
    (hnum : ∀ r ∈ l, (jsParseInt r.id).isSome = true) :
    sortJoinedDesc l = specSortDesc l := by
  refine insertionSort_congr _ _ l (fun a ha b hb => ?_)
  obtain ⟨pa, hpa⟩ := Option.isSome_iff_exists.mp (hnum a ha)
  obtain ⟨pb, hpb⟩ := Option.isSome_iff_exists.mp (hnum b hb)
  simp [joinLeB, specDescLe, specIdKey, hpa, hpb]

theorem getRegistrationsWithEvents_eq_joinSpec (s : Store)
    (hids : (s.events.map Event.id).Nodup)
    (hnum : ∀ r ∈ s.registrations, (jsParseInt r.id).isSome = true) :
    getRegistrationsWithEvents none s = .ok (joinSpec s) := by
  have hrows :
      (s.registrations.map (fun reg =>
        match lastWinsLookup (sortEventsByDate s.events) reg.event_id with
        | none => none
        | some event => some (mkJoinedRow reg event))).reduceOption
      = s.registrations.filterMap (fun reg =>
          (s.events.find? (fun e => e.id == reg.event_id)).map (mkJoinedRow reg)) := by
    rw [reduceOption_map_eq_filterMap]
    refine List.filterMap_congr (fun reg _ => ?_)
    rw [lastWins_sorted_eq_find? s reg.event_id hids]
    cases s.events.find? (fun e => e.id == reg.event_id) <;> rfl
  have hnumrows : ∀ r ∈ s.registrations.filterMap (fun reg =>
      (s.events.find? (fun e => e.id == reg.event_id)).map (mkJoinedRow reg)),
      (jsParseInt r.id).isSome = true := by
    intro r hr
    obtain ⟨reg, hreg, hval⟩ := List.mem_filterMap.mp hr
    cases hfind : s.events.find? (fun e => e.id == reg.event_id) with
    | none => rw [hfind] at hval; simp at hval
    | some event =>
      rw [hfind] at hval
      simp only [Option.map_some'] at hval
      have : r.id = reg.id := by
        have hr2 : mkJoinedRow reg event = r := Option.some.injEq _ _ ▸ hval
        rw [← hr2]
        rfl
      rw [this]
      exact hnum reg hreg
  simp only [getRegistrationsWithEvents, getAllRegistrations, getAllEvents,
    joinSpec, Except.bind, bind, pure, Except.pure, hrows]
  rw [sortJoinedDesc_eq_specSortDesc _ hnumrows]

/-! Claim theorems. -/

/-- Claim C1: for every store whose event ids are distinct and whose
registration ids are numeric, a query text reaching pattern 6 (containing
FROM REGISTRATIONS R and INNER JOIN EVENTS E and matching no earlier
pattern) returns a single element outer sequence whose row list is exactly
the specification join: flattened rows for each registration whose event_id
is present in the event map, registrations with absent events dropped, and
the rows sorted by registration id descending under numeric comparison. -/
theorem c1_join_query_matches_spec (gen : String) (s : Store)
    (sql : String) (params : List String)
    (hids : (s.events.map Event.id).Nodup)
    (hnum : ∀ r ∈ s.registrations, (jsParseInt r.id).isSome = true)
    (hp1 : matchP1 (normalizeSql sql) = false)
    (hp2 : matchP2 (normalizeSql sql) = false)
    (hp2b : matchP2b (normalizeSql sql) = false)
    (hp3 : matchP3 (normalizeSql sql) = false)
    (hp4 : matchP4 (normalizeSql sql) = false)
    (hp5 : matchP5 (normalizeSql sql) = false)
    (hp6 : matchP6 (normalizeSql sql) = true) :
    query none gen s sql params
      = .ok ([.rowList ((joinSpec s).map Row.joined)], s) := by
  simp only [query, hp1, hp2, hp2b, hp3, hp4, hp5, hp6, if_false, if_true,
    Bool.false_eq_true, Bool.true_eq_false,
    getRegistrationsWithEvents_eq_joinSpec s hids hnum]

/-- Witness for C1: the specification example, two events and three
registrations, produces exactly three flattened rows ordered by
registration id descending. -/
theorem c1_join_query_matches_spec_witness :
    query none "g"
      { events :=
          [{ id := "1", title := "TechFest", date := "2026-01-10", venue := "Hall A" },
           { id := "2", title := "CultFest", date := "2026-02-05", venue := "Hall B" }],
        registrations :=
          [{ id := "1", name := "A", email := "a@muj.edu", event_id := "1" },
           { id := "2", name := "B", email := "b@muj.edu", event_id := "2" },
           { id := "3", name := "C", email := "c@muj.edu", event_id := "1" }],
        users := [] }
      "SELECT r.id, r.name, r.email, e.title as event_title, e.date as event_date, e.venue as event_venue FROM registrations r INNER JOIN events e ON r.event_id = e.id ORDER BY r.id DESC"
      []
      = .ok ([.rowList
          [.joined { id := "3", name := "C", email := "c@muj.edu",
                     event_title := "TechFest", event_date := "2026-01-10",
                     event_venue := "Hall A" },
           .joined { id := "2", name := "B", email := "b@muj.edu",
                     event_title := "CultFest", event_date := "2026-02-05",
                     event_venue := "Hall B" },
           .joined { id := "1", name := "A", email := "a@muj.edu",
                     event_title := "TechFest", event_date := "2026-01-10",
                     event_venue := "Hall A" }]],
        { events :=
            [{ id := "1", title := "TechFest", date := "2026-01-10", venue := "Hall A" },
             { id := "2", title := "CultFest", date := "2026-02-05", venue := "Hall B" }],
          registrations :=
            [{ id := "1", name := "A", email := "a@muj.edu", event_id := "1" },
             { id := "2", name := "B", email := "b@muj.edu", event_id := "2" },
             { id := "3", name := "C", email := "c@muj.edu", event_id := "1" }],
          users := [] }) := by
  rw [c1_join_query_matches_spec "g" _ _ [] (by decide) (by decide) (by decide)
    (by decide) (by decide) (by decide) (by decide) (by decide) (by decide)]
  rfl

/-- Claim C2: a query text matching none of the recognized patterns returns
the doubly wrapped empty result for every parameter list, every backend
health and every store, and raises no error. -/
theorem c2_unmatched_query_returns_empty (h : Health) (gen : String)
    (s : Store) (sql : String) (params : List String)
    (hp1 : matchP1 (normalizeSql sql) = false)
    (hp2 : matchP2 (normalizeSql sql) = false)
    (hp2b : matchP2b (normalizeSql sql) = false)
    (hp3 : matchP3 (normalizeSql sql) = false)
    (hp4 : matchP4 (normalizeSql sql) = false)
    (hp5 : matchP5 (normalizeSql sql) = false)
    (hp6 : matchP6 (normalizeSql sql) = false) :
    query h gen s sql params = .ok ([.rowList []], s) := by
  simp [query, hp1, hp2, hp2b, hp3, hp4, hp5, hp6]

/-- Witness for C2 at an unrecognized UPDATE text. -/
theorem c2_unmatched_query_returns_empty_witness :
    query none "gen" { events := [], registrations := [], users := [] }
      "UPDATE events SET title = ?" ["x"]
      = .ok ([.rowList []], { events := [], registrations := [], users := [] }) :=
  c2_unmatched_query_returns_empty none "gen" _ _ _ (by decide) (by decide)
    (by decide) (by decide) (by decide) (by decide) (by decide)

/-- Counterexample for C3: a store-unavailable failure (not the not-found
status) inside the lookup getEventById is swallowed and translated to a
null result instead of propagating to the caller as the claim states. -/
theorem c3_counterexample :
    getEventById (some (StoreFailure.unavailable "backend unavailable"))
      { events := [{ id := "1", title := "TechFest", date := "2026-01-10",
                       venue := "Hall A" }],
        registrations := [], users := [] } "1" = .ok none
    ∧ getAllEvents (some (StoreFailure.unavailable "backend unavailable"))
      { events := [{ id := "1", title := "TechFest", date := "2026-01-10",
                       venue := "Hall A" }],
        registrations := [], users := [] } = .ok [] := by
  exact ⟨rfl, rfl⟩

/-- Amended C3: the store-level lookups swallow every failure, not-found or
otherwise, and translate it to a null or empty result; only the write
operations propagate failures, with the descriptive database-not-enabled
message for the not-found status in createEvent. -/
theorem c3_amended_lookups_swallow_all_errors (h : Health) (s : Store)
    (id m gen t d v : String) :
    getEventById h s id
      = .ok (match h with
        | none => s.events.find? (fun e => e.id == id)
        | some _ => none)
    ∧ getAllEvents h s
      = .ok (match h with
        | none => sortEventsByDate s.events
        | some _ => [])
    ∧ createEvent (some .notFound) gen s t d v = .error { msg := dbNotEnabledMsg }
    ∧ createEvent (some (.unavailable m)) gen s t d v = .error { msg := m } := by
  refine ⟨?_, ?_, rfl, rfl⟩ <;> cases h <;> rfl

/-- Claim C5: creating an event with a fresh generated id and reading it
back by the returned id yields a record whose title, date and venue equal
the values supplied at creation. -/
theorem c5_create_read_roundtrip (gen : String) (s : Store)
    (title date venue : String)
    (hfresh : ∀ e ∈ s.events, ¬(e.id = gen)) :
    ∃ ev s', createEvent none gen s title date venue = .ok (ev, s')
      ∧ ev.title = title ∧ ev.date = date ∧ ev.venue = venue
      ∧ getEventById none s' ev.id = .ok (some ev) := by
  refine ⟨{ id := gen, title := title, date := date, venue := venue },
    { s with events := s.events ++
        [{ id := gen, title := title, date := date, venue := venue }] },
    rfl, rfl, rfl, rfl, ?_⟩
  have hnone : s.events.find? (fun e => e.id == gen) = none :=
    List.find?_eq_none.mpr (fun e he => by
      simp only [Bool.not_eq_true, beq_eq_false_iff_ne, ne_eq]
      exact hfresh e he)
  simp [getEventById, List.find?_append, hnone]

/-- Witness for C5 on a nonempty store with a fresh id. -/
theorem c5_create_read_roundtrip_witness :
    ∃ ev s', createEvent none "k7"
        { events := [{ id := "1", title := "Old", date := "2025-01-01",
                         venue := "Hall" }],
          registrations := [], users := [] } "TechFest" "2026-01-10" "Hall A"
        = .ok (ev, s')
      ∧ ev.title = "TechFest" ∧ ev.date = "2026-01-10" ∧ ev.venue = "Hall A"
      ∧ getEventById none s' ev.id = .ok (some ev) :=
  c5_create_read_roundtrip "k7" _ "TechFest" "2026-01-10" "Hall A" (by decide)

/-- Claim C7: deleting an event removes only that event document; the
registrations and users are untouched, and the query by event_id returns
the same registrations before and after the deletion. -/
theorem c7_delete_event_no_cascade (s : Store) (id eid : String) :
    ∃ s', deleteEvent none s id = .ok (true, s')
      ∧ s'.registrations = s.registrations
      ∧ s'.users = s.users
      ∧ s'.events = s.events.filter (fun e => !(e.id == id))
      ∧ getRegistrationsByEventId none s' eid
          = getRegistrationsByEventId none s eid :=
  ⟨_, rfl, rfl, rfl, rfl, rfl⟩

/-- Counterexample for C8: a text containing both INSERT INTO EVENTS and
INSERT INTO REGISTRATIONS is dispatched to the event insert (the first
matching pattern), so with registration parameters it creates an event from
them and no registration, contrary to the claim read over every text
containing INSERT INTO REGISTRATIONS. -/
theorem c8_counterexample :
    query none "g1" { events := [], registrations := [], users := [] }
      "INSERT INTO EVENTS INSERT INTO REGISTRATIONS" ["Bob", "BOB@X.COM", "5"]
      = .ok ([.insertObj "g1"],
        { events := [{ id := "g1", title := "Bob", date := "BOB@X.COM",
                         venue := "5" }],
          registrations := [], users := [] }) := by
  rfl

/-- Amended C8: a text containing INSERT INTO EVENTS always creates an
event from the positional parameters (title, date, venue) and returns the
insertId wrapper; a text containing INSERT INTO REGISTRATIONS creates the
registration (name trimmed, email trimmed and lowercased) and returns the
insertId wrapper provided no earlier pattern matches the text. -/
theorem c8_amended_insert_dispatch (gen : String) (s : Store)
    (sql p0 p1 p2 : String) :
    (matchP1 (normalizeSql sql) = true →
      query none gen s sql [p0, p1, p2]
        = .ok ([.insertObj gen],
            { s with events := s.events ++
                [{ id := gen, title := p0, date := p1, venue := p2 }] }))
    ∧ (matchP1 (normalizeSql sql) = false →
       matchP2 (normalizeSql sql) = false →
       matchP2b (normalizeSql sql) = false →
       matchP3 (normalizeSql sql) = false →
       matchP4 (normalizeSql sql) = false →
       matchP5 (normalizeSql sql) = true →
      query none gen s sql [p0, p1, p2]
        = .ok ([.insertObj gen],
            { s with registrations := s.registrations ++
                [{ id := gen, name := jsTrim p0,
                   email := jsToLower (jsTrim p1), event_id := p2 }] })) := by
  constructor
  · intro h1
    simp [query, h1, createEvent]
  · intro h1 h2 h2b h3 h4 h5
    simp [query, h1, h2, h2b, h3, h4, h5, createRegistration]

/-- Witness for C8 on the two insert texts used by the routes. -/
theorem c8_amended_insert_dispatch_witness :
    query none "e9" { events := [], registrations := [], users := [] }
      "INSERT INTO events (title, date, venue) VALUES (?, ?, ?)"
      ["TechFest", "2026-01-10", "Hall A"]
      = .ok ([.insertObj "e9"],
        { events := [{ id := "e9", title := "TechFest", date := "2026-01-10",
                         venue := "Hall A" }],
          registrations := [], users := [] })
    ∧ query none "r9" { events := [], registrations := [], users := [] }
      "INSERT INTO registrations (name, email, event_id) VALUES (?, ?, ?)"
      [" Bob ", " BOB@MUJ.EDU ", "7"]
      = .ok ([.insertObj "r9"],
        { events := [],
          registrations := [{ id := "r9", name := "Bob",
                              email := "bob@muj.edu", event_id := "7" }],
          users := [] }) := by
  constructor
  · rw [(c8_amended_insert_dispatch "e9" _ _ "TechFest" "2026-01-10" "Hall A").1
      (by decide)]
    rfl
  · rw [(c8_amended_insert_dispatch "r9" _ _ " Bob " " BOB@MUJ.EDU " "7").2
      (by decide) (by decide) (by decide) (by decide) (by decide) (by decide)]
    rfl

/-- Claim C10: getUserRole returns the stored role exactly when the backend
is healthy and the user document exists, and the student default in every
other situation (document absent or any backend failure); it never raises. -/
theorem c10_role_fails_closed_to_student (h : Health) (s : Store)
    (uid : String) :
    getUserRole h s uid
      = match h, s.users.find? (fun u => u.uid == uid) with
        | none, some u => u.role
        | none, none => "student"
        | some _, _ => "student" := by
  cases h with
  | none =>
    simp only [getUserRole, getUserByUid]
    cases s.users.find? (fun u => u.uid == uid) <;> rfl
  | some f => rfl

/-- Claim C4: after one successful registration, the existence check query
run with any email whose lowercasing equals the stored (trimmed and
lowercased) email and with the same event id returns the single synthetic
row with id 1, so the route duplicate check answers already-registered;
when no stored registration matches the pair, the inner sequence is empty. -/
theorem c4_duplicate_check_case_insensitive (gen gen2 : String) (s : Store)
    (name email eid qe nm sql : String)
    (hp1 : matchP1 (normalizeSql sql) = false)
    (hp2 : matchP2 (normalizeSql sql) = false)
    (hp2b : matchP2b (normalizeSql sql) = false)
    (hp3 : matchP3 (normalizeSql sql) = false)
    (hp4 : matchP4 (normalizeSql sql) = true)
    (hcase : jsToLower qe = jsToLower (jsTrim email)) :
    (∀ r s', createRegistration none gen s name email eid = .ok (r, s') →
       query none gen2 s' sql [qe, eid] = .ok ([.rowList [.idRow 1]], s'))
    ∧ ((∀ r ∈ s.registrations, ¬(r.email = jsToLower qe ∧ r.event_id = eid)) →
       query none gen2 s sql [qe, eid] = .ok ([.rowList []], s))
    ∧ (∀ r s', createRegistration none gen s name email eid = .ok (r, s') →
       emailRegexTest qe = true → (nm == "") = false → (qe == "") = false →
       (eid == "") = false →
       (s'.events.find? (fun e => e.id == eid)).isSome = true →
       postRegister none gen2 s' nm qe eid = (.alreadyRegistered, s')) := by
  have hkey : ∀ s₂ : Store,
      s₂.registrations.any (fun r =>
        r.email == jsToLower qe && r.event_id == eid) = true →
      query none gen2 s₂ sql [qe, eid] = .ok ([.rowList [.idRow 1]], s₂) := by
    intro s₂ hany
    simp [query, hp1, hp2, hp2b, hp3, hp4, isEmailRegisteredForEvent, hany]
  have hanynew : ∀ s₂ : Store,
      (s₂.registrations ++
        [{ id := gen, name := jsTrim name, email := jsToLower (jsTrim email),
           event_id := eid : Registration }]).any (fun r =>
          r.email == jsToLower qe && r.event_id == eid) = true := by
    intro s₂
    rw [List.any_append]
    simp [hcase]
  refine ⟨?_, ?_, ?_⟩
  · intro r s' hc
    have hc' : ({ id := gen, name := jsTrim name,
                  email := jsToLower (jsTrim email),
                  event_id := eid : Registration } = r)
        ∧ ({ s with registrations := s.registrations ++
                      [{ id := gen, name := jsTrim name,
                         email := jsToLower (jsTrim email),
                         event_id := eid }] } = s') := by
      have h0 := hc
      simp only [createRegistration, Except.ok.injEq, Prod.mk.injEq] at h0
      exact h0
    obtain ⟨hr, hs⟩ := hc'
    subst hr hs
    exact hkey _ (hanynew s)
  · intro hno
    have hany : s.registrations.any (fun r =>
        r.email == jsToLower qe && r.event_id == eid) = false := by
      rw [List.any_eq_false]
      intro r hr hmatch
      rw [Bool.and_eq_true] at hmatch
      exact hno r hr ⟨beq_iff_eq.mp hmatch.1, beq_iff_eq.mp hmatch.2⟩
    simp [query, hp1, hp2, hp2b, hp3, hp4, isEmailRegisteredForEvent, hany]
  · intro r s' hc hre hnm hqe heid hev
    have hc' : ({ s with registrations := s.registrations ++
                           [{ id := gen, name := jsTrim name,
                              email := jsToLower (jsTrim email),
                              event_id := eid }] } = s') := by
      have h0 := hc
      simp only [createRegistration, Except.ok.injEq, Prod.mk.injEq] at h0
      exact h0.2
    obtain ⟨e, he⟩ := Option.isSome_iff_exists.mp hev
    have m1 : matchP1 (normalizeSql "SELECT id FROM events WHERE id = ?") = false := by
      decide
    have m2 : matchP2 (normalizeSql "SELECT id FROM events WHERE id = ?") = true := by
      decide
    have n1 : matchP1 (normalizeSql
      "SELECT id FROM registrations WHERE email = ? AND event_id = ?") = false := by
      decide
    have n2 : matchP2 (normalizeSql
      "SELECT id FROM registrations WHERE email = ? AND event_id = ?") = false := by
      decide
    have n2b : matchP2b (normalizeSql
      "SELECT id FROM registrations WHERE email = ? AND event_id = ?") = false := by
      decide
    have n3 : matchP3 (normalizeSql
      "SELECT id FROM registrations WHERE email = ? AND event_id = ?") = false := by
      decide
    have n4 : matchP4 (normalizeSql
      "SELECT id FROM registrations WHERE email = ? AND event_id = ?") = true := by
      decide
    have hany : s'.registrations.any (fun x =>
        x.email == jsToLower qe && x.event_id == eid) = true := by
      rw [← hc']
      exact hanynew s
    simp [postRegister, hnm, hqe, heid, hre, query, m1, m2, n1, n2, n2b, n3, n4,
      getEventById, isEmailRegisteredForEvent, he, hany, firstRowList]

/-- Witness for C4: with a stored registration for alice, a query with the
uppercased email reports the duplicate and the route rejects it, and a
store without the pair reports the empty inner sequence. -/
theorem c4_duplicate_check_case_insensitive_witness :
    (∀ r s', createRegistration none "g1"
        { events := [{ id := "7", title := "T", date := "d", venue := "v" }],
          registrations := [], users := [] } "Alice" "Alice@MUJ.edu" "7"
        = .ok (r, s') →
      query none "g2" s'
        "SELECT id FROM registrations WHERE email = ? AND event_id = ?"
        ["ALICE@muj.edu", "7"] = .ok ([.rowList [.idRow 1]], s'))
    ∧ (∀ r s', createRegistration none "g1"
        { events := [{ id := "7", title := "T", date := "d", venue := "v" }],
          registrations := [], users := [] } "Alice" "Alice@MUJ.edu" "7"
        = .ok (r, s') →
      emailRegexTest "ALICE@muj.edu" = true → ("Alice" == "") = false →
      ("ALICE@muj.edu" == "") = false → ("7" == "") = false →
      (s'.events.find? (fun e => e.id == "7")).isSome = true →
      postRegister none "g2" s' "Alice" "ALICE@muj.edu" "7"
        = (.alreadyRegistered, s')) := by
  have h := c4_duplicate_check_case_insensitive "g1" "g2"
    { events := [{ id := "7", title := "T", date := "d", venue := "v" }],
      registrations := [], users := [] }
    "Alice" "Alice@MUJ.edu" "7" "ALICE@muj.edu" "Alice"
    "SELECT id FROM registrations WHERE email = ? AND event_id = ?"
    (by decide) (by decide) (by decide) (by decide) (by decide) (by decide)
  exact ⟨h.1, h.2.2⟩

/-- Claim C6: createUser is idempotent: when a user with the uid exists the
existing record is returned and the store is unchanged, two calls with the
same uid return the same record, and afterwards exactly one stored user
carries the uid. -/
theorem c6_create_user_idempotent (s : Store) (d : UserData)
    (huniq : (s.users.filter (fun u => u.uid == d.uid)).length ≤ 1) :
    ∃ u s₁, createUser none s d = .ok (some u, s₁)
      ∧ createUser none s₁ d = .ok (some u, s₁)
      ∧ (s₁.users.filter (fun x => x.uid == d.uid)).length = 1
      ∧ (∀ u₀, s.users.find? (fun x => x.uid == d.uid) = some u₀ →
          u = u₀ ∧ s₁ = s) := by
  cases hfind : s.users.find? (fun u => u.uid == d.uid) with
  | some u₀ =>
    refine ⟨u₀, s, ?_, ?_, ?_, ?_⟩
    · simp [createUser, hfind]
    · simp [createUser, hfind]
    · have hp := List.find?_some hfind
      have hmem := List.mem_of_find?_eq_some hfind
      have h1 : 0 < (s.users.filter (fun x => x.uid == d.uid)).length := by
        rw [List.length_pos]
        intro hnil
        have hm : u₀ ∈ s.users.filter (fun x => x.uid == d.uid) :=
          List.mem_filter.mpr ⟨hmem, hp⟩
        rw [hnil] at hm
        exact List.not_mem_nil u₀ hm
      omega
    · intro u₁ h₁
      exact ⟨Option.some.inj h₁, rfl⟩
  | none =>
    have hnomatch := List.find?_eq_none.mp hfind
    have hany : s.users.any (fun x => x.uid == d.uid) = false := by
      rw [List.any_eq_false]
      exact hnomatch
    have hfil : s.users.filter (fun x => x.uid == d.uid) = [] :=
      List.filter_eq_nil_iff.mpr hnomatch
    have hfind2 : (s.users ++
        [{ uid := d.uid, email := d.email, name := jsOr d.name d.email,
           role := jsOr d.role "student" : User }]).find?
          (fun x => x.uid == d.uid)
        = some { uid := d.uid, email := d.email, name := jsOr d.name d.email,
                 role := jsOr d.role "student" } := by
      rw [List.find?_append, hfind, Option.none_or]
      simp
    refine ⟨{ uid := d.uid, email := d.email, name := jsOr d.name d.email,
              role := jsOr d.role "student" },
      { s with users := s.users ++
          [{ uid := d.uid, email := d.email, name := jsOr d.name d.email,
             role := jsOr d.role "student" }] }, ?_, ?_, ?_, ?_⟩
    · simp only [createUser, hfind, setDocUser, hany, Bool.false_eq_true,
        if_false]
      rw [hfind2]
    · simp only [createUser]
      rw [hfind2]
    · simp only [List.filter_append, hfil, List.nil_append]
      simp
    · intro u₁ h₁
      exact absurd h₁ (by simp)

/-- Witness for C6: two calls with the same uid on an initially empty user
collection return the same stored record and store exactly one user. -/
theorem c6_create_user_idempotent_witness :
    ∃ u s₁, createUser none { events := [], registrations := [], users := [] }
        { uid := "u1", email := "a@muj.edu", name := "", role := "" }
        = .ok (some u, s₁)
      ∧ createUser none s₁
          { uid := "u1", email := "a@muj.edu", name := "", role := "" }
          = .ok (some u, s₁)
      ∧ (s₁.users.filter (fun x => x.uid == "u1")).length = 1
      ∧ (∀ u₀, (List.nil : List User).find? (fun x => x.uid == "u1") = some u₀ →
          u = u₀ ∧ s₁ = { events := [], registrations := [], users := [] }) :=
  c6_create_user_idempotent
    { events := [], registrations := [], users := [] }
    { uid := "u1", email := "a@muj.edu", name := "", role := "" } (by decide)

theorem toLower_ws (c : Char) (h : wsChar c = true) : Char.toLower c = c := by
  have h' := h
  simp only [wsChar, Char.isWhitespace, Bool.or_eq_true, decide_eq_true_eq] at h'
  rcases h' with ((h' | h') | h') | h' <;> rw [h'] <;> decide

theorem dropWhile_cons_pred {α : Type} (p : α → Bool) (l : List α) (b : α)
    (t : List α) (h : l.dropWhile p = b :: t) : p b = false := by
  induction l with
  | nil => simp at h
  | cons a l ih =>
    rw [List.dropWhile_cons] at h
    by_cases hpa : p a = true
    · rw [if_pos hpa] at h
      exact ih h
    · rw [if_neg hpa] at h
      injection h with h1 h2
      rw [← h1]
      simpa using hpa

theorem emailRegexTest_false_of_ws (email : String) (c : Char)
    (hc : c ∈ email.data) (hw : wsChar c = true) :
    emailRegexTest email = false := by
  have hat : (c == '@') = false := by
    rw [beq_eq_false_iff_ne]
    intro hceq
    rw [hceq] at hw
    exact absurd hw (by decide)
  simp only [emailRegexTest]
  cases hdw : email.data.dropWhile (fun x => !(x == '@')) with
  | nil => rfl
  | cons hd rest =>
    have hsplit : email.data
        = email.data.takeWhile (fun x => !(x == '@')) ++ (hd :: rest) := by
      have h0 := (List.takeWhile_append_dropWhile
        (fun x => !(x == '@')) email.data).symm
      rw [hdw] at h0
      exact h0
    rw [hsplit] at hc
    rcases List.mem_append.mp hc with hca | hctl
    · have hall : (email.data.takeWhile (fun x => !(x == '@'))).all
          (fun x => !wsChar x) = false :=
        List.all_eq_false.mpr ⟨c, hca, by simp [hw]⟩
      simp [hall]
    · rcases List.mem_cons.mp hctl with hceq | hcr
      · have hph := dropWhile_cons_pred (fun x => !(x == '@')) email.data hd
          rest hdw
        rw [← hceq] at hph
        simp [hat] at hph
      · have hall : rest.all (fun x => !wsChar x && !(x == '@')) = false :=
          List.all_eq_false.mpr ⟨c, hcr, by simp [hw]⟩
        simp [hall]

/-- Counterexample for C9: with a stored registration for alice@muj.edu on
event 7, the existence check with the whitespace prefixed email does return
empty as the claim explains, but the route rejects that request as an
invalid email format before its duplicate check runs, leaving the store
unchanged — no second registration is allowed through the route. -/
theorem c9_counterexample :
    isEmailRegisteredForEvent none
      { events := [{ id := "7", title := "T", date := "d", venue := "v" }],
        registrations := [{ id := "1", name := "Alice",
                            email := "alice@muj.edu", event_id := "7" }],
        users := [] } " alice@muj.edu" "7" = .ok false
    ∧ postRegister none "g2"
      { events := [{ id := "7", title := "T", date := "d", venue := "v" }],
        registrations := [{ id := "1", name := "Alice",
                            email := "alice@muj.edu", event_id := "7" }],
        users := [] } "Alice" " alice@muj.edu" "7"
      = (.invalidEmail,
        { events := [{ id := "7", title := "T", date := "d", venue := "v" }],
          registrations := [{ id := "1", name := "Alice",
                              email := "alice@muj.edu", event_id := "7" }],
          users := [] }) :=
  ⟨rfl, rfl⟩

/-- Amended C9: the store-level existence check indeed lowercases without
trimming, so a query email carrying leading or trailing whitespace never
matches a stored (trimmed) email and the check returns false; but the
route email format validation rejects every email containing whitespace
before the duplicate check, so the request fails as invalid format and no
second registration is created through the route. -/
theorem c9_amended_ws_email_rejected_by_format (gen : String) (s : Store)
    (nm qe eid : String)
    (htr : ∀ r ∈ s.registrations,
      (match r.email.data.head? with
       | some c => !wsChar c
       | none => true) = true ∧
      (match r.email.data.reverse.head? with
       | some c => !wsChar c
       | none => true) = true)
    (hq : (match qe.data.head? with
           | some c => wsChar c
           | none => false) = true ∨
          (match qe.data.reverse.head? with
           | some c => wsChar c
           | none => false) = true)
    (hnm : (nm == "") = false) (heid : (eid == "") = false) :
    isEmailRegisteredForEvent none s qe eid = .ok false
    ∧ emailRegexTest qe = false
    ∧ postRegister none gen s nm qe eid = (.invalidEmail, s) := by
  have hqc : ∃ c, wsChar c = true ∧
      (qe.data.head? = some c ∨ qe.data.reverse.head? = some c) := by
    rcases hq with h | h
    · cases hh : qe.data.head? with
      | none => rw [hh] at h; exact absurd h (by simp)
      | some c => rw [hh] at h; exact ⟨c, h, Or.inl rfl⟩
    · cases hh : qe.data.reverse.head? with
      | none => rw [hh] at h; exact absurd h (by simp)
      | some c => rw [hh] at h; exact ⟨c, h, Or.inr rfl⟩
  obtain ⟨c, hw, hloc⟩ := hqc
  have hmem : c ∈ qe.data := by
    rcases hloc with hh | hh
    · exact List.mem_of_mem_head? (by rw [hh]; rfl)
    · exact List.mem_reverse.mp (List.mem_of_mem_head? (by rw [hh]; rfl))
  have hreg : emailRegexTest qe = false := emailRegexTest_false_of_ws qe c hmem hw
  have hqe0 : (qe == "") = false := by
    rw [beq_eq_false_iff_ne]
    intro hqe
    rw [hqe] at hmem
    exact List.not_mem_nil c hmem
  have hisreg : s.registrations.any (fun r =>
      r.email == jsToLower qe && r.event_id == eid) = false := by
    rw [List.any_eq_false]
    intro r hr hmatch
    rw [Bool.and_eq_true] at hmatch
    have hem : r.email = jsToLower qe := beq_iff_eq.mp hmatch.1
    obtain ⟨h1, h2⟩ := htr r hr
    rcases hloc with hh | hh
    · have hhead : r.email.data.head? = some c := by
        rw [hem]
        show (qe.data.map Char.toLower).head? = some c
        rw [List.head?_map, hh]
        simp [toLower_ws c hw]
      rw [hhead] at h1
      simp [hw] at h1
    · have hhead : r.email.data.reverse.head? = some c := by
        rw [hem]
        show (qe.data.map Char.toLower).reverse.head? = some c
        rw [← List.map_reverse, List.head?_map, hh]
        simp [toLower_ws c hw]
      rw [hhead] at h2
      simp [hw] at h2
  refine ⟨?_, hreg, ?_⟩
  · simp [isEmailRegisteredForEvent, hisreg]
  · simp [postRegister, hnm, heid, hqe0, hreg]

/-- Witness for the amended C9, with trailing whitespace on the query
email. -/
theorem c9_amended_ws_email_rejected_by_format_witness :
    isEmailRegisteredForEvent none
      { events := [{ id := "7", title := "T", date := "d", venue := "v" }],
        registrations := [{ id := "1", name := "Alice",
                            email := "alice@muj.edu", event_id := "7" }],
        users := [] } "alice@muj.edu " "7" = .ok false
    ∧ emailRegexTest "alice@muj.edu " = false
    ∧ postRegister none "g3"
      { events := [{ id := "7", title := "T", date := "d", venue := "v" }],
        registrations := [{ id := "1", name := "Alice",
                            email := "alice@muj.edu", event_id := "7" }],
        users := [] } "Bob" "alice@muj.edu " "7"
      = (.invalidEmail,
        { events := [{ id := "7", title := "T", date := "d", venue := "v" }],
          registrations := [{ id := "1", name := "Alice",
                              email := "alice@muj.edu", event_id := "7" }],
          users := [] }) :=
  c9_amended_ws_email_rejected_by_format "g3" _ "Bob" "alice@muj.edu " "7"
    (by decide) (by decide) (by decide) (by decide)

end MujPortal
